import Mathlib

/-!
Verification of the flyclawd container manager (`src/manager/app.py`).

The Python module is shallowly embedded below.  Text is modelled as Lean
`String` (with the relevant Python string operations implemented over
`String.data`), the JSON configuration as an explicit `Json` tree together
with a `json.dumps(..., indent=2)` style printer, and the effectful
endpoint handlers as pure functions over an explicit oracle describing the
outcomes of the Docker runtime and filesystem calls, returning the trace of
attempted effects together with the result.
-/

namespace Flyclawd

/-! Generic list and text helpers. -/

/-- The test `subMatch pat s` holds when `pat` occurs as a contiguous sublist of `s`
(Python's `pat in s` on strings). -/
def subMatch (pat : List Char) : List Char → Bool
  | [] => pat.isEmpty
  | c :: rest => pat.isPrefixOf (c :: rest) || subMatch pat rest

/-- Substring test on strings. -/
def containsSub (s pat : String) : Bool :=
  subMatch pat.data s.data

/-- Does the text start with the front-matter marker `---`
(Python `raw.startswith("---")`)? -/
def markerAtStart (s : List Char) : Bool :=
  match s with
  | c :: d :: e :: _ => c = '-' && d = '-' && e = '-'
  | _ => false

/-- Does the marker `---` occur anywhere in the text? -/
def hasMarker : List Char → Bool
  | [] => false
  | c :: rest => markerAtStart (c :: rest) || hasMarker rest

/-- Prepend a character to the first part of a split result. -/
def consFirst (c : Char) : List (List Char) → List (List Char)
  | [] => [[c]]
  | p :: ps => (c :: p) :: ps

/-- Python `s.split("---", maxsplit)`: split on the leftmost occurrences of
the marker, at most `maxsplit` times; the remainder is kept whole. -/
def splitMarker : Nat → List Char → List (List Char)
  | 0, s => [s]
  | _ + 1, [] => [[]]
  | _ + 1, [c] => [[c]]
  | _ + 1, [c, d] => [[c, d]]
  | m + 1, c :: d :: e :: rest =>
    if markerAtStart (c :: d :: e :: rest) then
      [] :: splitMarker m rest
    else
      consFirst c (splitMarker (m + 1) (d :: e :: rest))

/-- Python `s.strip()`: drop whitespace from both ends. -/
def pyStrip (s : String) : String :=
  String.mk (((s.data.dropWhile Char.isWhitespace).reverse.dropWhile Char.isWhitespace).reverse)

/-- Numeric value of a list of decimal digit characters. -/
def digitsVal (ds : List Char) : Nat :=
  ds.foldl (fun acc c => acc * 10 + (c.toNat - 48)) 0

/-- Python `int(s)` on a string: optional surrounding whitespace, optional
sign, then decimal digits; anything else raises (modelled as `none`). -/
def pyInt (s : String) : Option Int :=
  match (pyStrip s).data with
  | [] => none
  | '+' :: ds =>
    if !ds.isEmpty && ds.all Char.isDigit then some (digitsVal ds) else none
  | '-' :: ds =>
    if !ds.isEmpty && ds.all Char.isDigit then some (-(digitsVal ds : Int)) else none
  | ds =>
    if ds.all Char.isDigit then some (digitsVal ds) else none

/-! JSON documents and a model of `json.dumps(..., indent=2)`. -/

/-- JSON values as written by the manager (objects keep insertion order,
as Python dicts do). -/
inductive Json where
  | null : Json
  | bool (b : Bool) : Json
  | num (n : Int) : Json
  | str (s : String) : Json
  | arr (xs : List Json) : Json
  | obj (fields : List (String × Json)) : Json

/-- Standard JSON string escaping for one character. -/
def jsonEscapeChar (c : Char) : List Char :=
  if c = '"' then ['\\', '"']
  else if c = '\\' then ['\\', '\\']
  else if c = '\n' then ['\\', 'n']
  else if c = '\t' then ['\\', 't']
  else if c = '\r' then ['\\', 'r']
  else [c]

/-- A JSON string literal: quotes around the escaped characters. -/
def jsonQuote (s : String) : List Char :=
  '"' :: s.data.foldr (fun c acc => jsonEscapeChar c ++ acc) ['"']

/-- Indentation of `n` spaces. -/
def spacesL (n : Nat) : List Char :=
  List.replicate n ' '

/-- Python `json.dumps(value, indent=2)`, fuelled by the tree depth; `ind` is the
indentation level of the surrounding container. -/
def jsonDumpsF : Nat → Nat → Json → List Char
  | 0, _, _ => []
  | f + 1, ind, j =>
    match j with
    | .null => "null".data
    | .bool true => "true".data
    | .bool false => "false".data
    | .num n => (toString n).data
    | .str s => jsonQuote s
    | .arr [] => "[]".data
    | .arr (x :: xs) =>
      '[' :: '\n' ::
        List.intercalate ",\n".data
          ((x :: xs).map fun v => spacesL (ind + 2) ++ jsonDumpsF f (ind + 2) v) ++
        '\n' :: spacesL ind ++ [']']
    | .obj [] => ['\x7b', '\x7d']
    | .obj (kv :: kvs) =>
      '\x7b' :: '\n' ::
        List.intercalate ",\n".data
          ((kv :: kvs).map fun p =>
            spacesL (ind + 2) ++ jsonQuote p.1 ++ ':' :: ' ' :: jsonDumpsF f (ind + 2) p.2) ++
        '\n' :: spacesL ind ++ ['\x7d']

/-- Render a JSON document the way `json.dumps(config, indent=2)` does. -/
def jsonDumps (j : Json) : String :=
  String.mk (jsonDumpsF 32 0 j)

/-- Look a key up in a JSON object (Python `config["key"]`). -/
def jsonLookup (j : Json) (key : String) : Option Json :=
  match j with
  | .obj fields => fields.lookup key
  | _ => none

/-! Request model and pure document builders (`app.py` helpers). -/

/-- Model `CreateContainerRequest` (app.py lines 41-47).  `business_id` is typed
numeric by the model layer; the other fields are arbitrary strings. -/
structure Req where
  business_id : Int
  business_name : String
  telegram_bot_token : String
  telegram_user_id : String
  api_key : String
  flyapp_api_url : String

/-- Model `ContainerResponse` (app.py lines 50-52). -/
structure ContainerResp where
  container_id : String
  status : String
deriving DecidableEq

/-- Model `HealthResponse` (app.py lines 55-58). -/
structure HealthResp where
  container_id : String
  status : String
  healthy : Bool
deriving DecidableEq

/-- Helper `_container_name` (app.py line 64). -/
def containerName (businessId : Int) : String :=
  "openclaw-client-" ++ toString businessId

/-- Helper `_build_config` (app.py lines 79-114).  `tok` is the process-wide
`MANAGER_TOKEN`.  `int(req.telegram_user_id)` can raise `ValueError`,
modelled as `none`. -/
def buildConfig (tok : String) (req : Req) : Option Json :=
  (pyInt req.telegram_user_id).map fun uid =>
    Json.obj [
      ("gateway", .obj [
        ("port", .num 18789),
        ("bind", .str "lan"),
        ("auth", .obj [("token", .str tok)])]),
      ("agents", .obj [
        ("defaults", .obj [
          ("model", .obj [("primary", .str "anthropic/claude-sonnet-4-6")]),
          ("contextTokens", .num 32000),
          ("timeoutSeconds", .num 120)])]),
      ("tools", .obj [
        ("profile", .str "minimal"),
        ("allow", .arr [.str "read", .str "exec", .str "web_fetch"]),
        ("deny", .arr [.str "write", .str "edit", .str "gateway"]),
        ("loopDetection", .obj [
          ("enabled", .bool true),
          ("warningThreshold", .num 5),
          ("criticalThreshold", .num 10),
          ("globalCircuitBreakerThreshold", .num 15)])]),
      ("channels", .obj [
        ("telegram", .obj [
          ("botToken", .str req.telegram_bot_token),
          ("dmPolicy", .str "allowlist"),
          ("allowFrom", .arr [.num uid]),
          ("dmHistoryLimit", .num 20)])])]

/-- The text written to `config/openclaw.json` (app.py line 211):
`json.dumps(config, indent=2) + "\n"`. -/
def configDocText (tok : String) (req : Req) : Option String :=
  (buildConfig tok req).map fun j => jsonDumps j ++ "\n"

/-- Helper `_load_skill_content` (app.py lines 117-128): the skill file's content,
or `none` when the file is missing; strips a leading `---`-framed YAML
front-matter block via `raw.split("---", 2)`. -/
def loadSkillContent (file : Option String) : String :=
  match file with
  | none => ""
  | some raw =>
    if markerAtStart raw.data then
      let parts := splitMarker 2 raw.data
      if 3 ≤ parts.length then pyStrip (String.mk (parts.getD 2 [])) else raw
    else raw

/-- The `SOUL.md` persona document (app.py lines 137-155). -/
def renderSoul (req : Req) : String :=
  "You are the shop manager for **" ++ req.business_name ++ "**.\n" ++
  "You talk to the shop owner and their staff (florists, drivers, etc).\n\n" ++
  "## Personality\n" ++
  "- Talk like a friendly, helpful coworker — casual, warm, human\n" ++
  "- Never mention APIs, endpoints, tokens, technical errors, or code\n" ++
  "- If something fails, say it simply: \"Couldn\x27t load that, let me try again\"\n" ++
  "- Keep it short — this is Telegram, not email\n" ++
  "- Use the language the user writes in\n\n" ++
  "## What you do\n" ++
  "- Check orders, update their status, track deliveries\n" ++
  "- Look up customers, products, inventory\n" ++
  "- Pull sales numbers and reports\n" ++
  "- Only discuss " ++ req.business_name ++ " operations\n\n" ++
  "## Error handling\n" ++
  "- If an API call fails, try ONE more time at most\n" ++
  "- After 2 failures, stop and tell the user: \"Having trouble reaching the system right now, please try again in a moment\"\n" ++
  "- NEVER retry the same failing call in a loop\n"

/-- The `TOOLS.md` credential document (app.py lines 159-169); `skill` is
the already-stripped external skill text. -/
def renderTools (skill : String) (req : Req) : String :=
  "# flyapp API\n\n" ++
  "## Credentials (internal — never expose to user)\n" ++
  "- Key: `" ++ req.api_key ++ "`\n" ++
  "- Base: `" ++ req.flyapp_api_url ++ "`\n\n" ++
  "## curl examples\n" ++
  "GET: `curl -s -H \"X-API-Key: " ++ req.api_key ++ "\" \"" ++
    req.flyapp_api_url ++ "/orders/?status=all&limit=25\"`\n" ++
  "POST: `curl -s -X POST -H \"X-API-Key: " ++ req.api_key ++
    "\" -H \"Content-Type: application/json\" " ++
    "-d \x27\x7b\"status\":\"ready\"\x7d\x27 \"" ++ req.flyapp_api_url ++
    "/orders/PUBLIC_ID/status/\"`\n\n" ++
  skill ++ "\n"

/-! Endpoint handlers as oracle machines.

Each Docker/filesystem call the handler makes is an *effect*; the oracle
fixes the environment's response to each effect (success/failure, found/not
found).  A handler returns the list of effects it attempted, in program
order, together with its result. -/

/-- Effects attempted by `create_container`, in source order. -/
inductive Ev where
  | getContainer
  | removeContainer
  | rmtreeDir
  | mkdirConfig
  | writeConfig
  | mkdirWorkspace
  | writeSoul
  | writeTools
  | chown
  | netGet
  | netCreate
  | runContainer
deriving DecidableEq

/-- Errors from the Docker network API, as distinguished by the handler. -/
inductive NetErr where
  | notFound
  | duplicate
  | other
deriving DecidableEq

/-- Ways `create_container` can fail. -/
inductive CreateErr where
  | valueError
  | fsError
  | netError (e : NetErr)
  | runError
deriving DecidableEq

/-- Environment oracle for one `create_container` execution: whether the
container/directory pre-exist, which filesystem operations succeed, what
the network lookup/create calls return, whether `containers.run` succeeds,
and the optional shared skill-file content. -/
structure Oracle where
  existing : Bool
  dirExists : Bool
  mkdirConfigOk : Bool
  configWriteOk : Bool
  mkdirWorkspaceOk : Bool
  soulWriteOk : Bool
  toolsWriteOk : Bool
  netFound : Bool
  netCreateErr : Option NetErr
  runOk : Bool
  skillFile : Option String

/-- Effects of app.py lines 195-207: look up (and force-remove) any
existing container, wipe the host directory if present, then attempt
`config_dir.mkdir(parents=True)`. -/
def baseTrace (o : Oracle) : List Ev :=
  (if o.existing then [Ev.getContainer, Ev.removeContainer] else [Ev.getContainer]) ++
    (if o.dirExists then [Ev.rmtreeDir] else []) ++ [Ev.mkdirConfig]

/-- Handler `create_container` (app.py lines 190-247), as a function of the
manager token, the environment oracle, and the request.  Mirrors the
source order: remove existing container, wipe and recreate the host
directory, build and write the config, write the workspace files
(`_write_workspace_files`, which also runs a non-failing `chown`), ensure
the network (`_ensure_network`), and only then run the container. -/
def createContainer (tok : String) (o : Oracle) (req : Req) :
    List Ev × Except CreateErr ContainerResp :=
  if o.mkdirConfigOk = false then
    (baseTrace o, .error .fsError)
  else
    match buildConfig tok req with
    | none => (baseTrace o, .error .valueError)
    | some _cfg =>
      if o.configWriteOk = false then
        (baseTrace o ++ [Ev.writeConfig], .error .fsError)
      else if o.mkdirWorkspaceOk = false then
        (baseTrace o ++ [Ev.writeConfig, Ev.mkdirWorkspace], .error .fsError)
      else if o.soulWriteOk = false then
        (baseTrace o ++ [Ev.writeConfig, Ev.mkdirWorkspace, Ev.writeSoul], .error .fsError)
      else if o.toolsWriteOk = false then
        (baseTrace o ++ [Ev.writeConfig, Ev.mkdirWorkspace, Ev.writeSoul, Ev.writeTools],
          .error .fsError)
      else if o.netFound then
        (baseTrace o ++ [Ev.writeConfig, Ev.mkdirWorkspace, Ev.writeSoul, Ev.writeTools,
            Ev.chown, Ev.netGet, Ev.runContainer],
          if o.runOk then .ok ⟨containerName req.business_id, "running"⟩
          else .error .runError)
      else
        match o.netCreateErr with
        | some e =>
          (baseTrace o ++ [Ev.writeConfig, Ev.mkdirWorkspace, Ev.writeSoul, Ev.writeTools,
              Ev.chown, Ev.netGet, Ev.netCreate],
            .error (.netError e))
        | none =>
          (baseTrace o ++ [Ev.writeConfig, Ev.mkdirWorkspace, Ev.writeSoul, Ev.writeTools,
              Ev.chown, Ev.netGet, Ev.netCreate, Ev.runContainer],
            if o.runOk then .ok ⟨containerName req.business_id, "running"⟩
            else .error .runError)

/-- The workspace documents `create_container` writes on a successful run
(`_write_workspace_files`, app.py lines 131-170): the persona and the
tool-credential documents. -/
def workspaceDocs (o : Oracle) (req : Req) : String × String :=
  (renderSoul req, renderTools (loadSkillContent o.skillFile) req)

/-- World state observed by `delete_container`: whether the tenant's
container and host directory exist. -/
structure DelWorld where
  containerExists : Bool
  dirExists : Bool
deriving DecidableEq

/-- Handler `delete_container` (app.py lines 255-271): force-remove the container
(404 when absent), then remove the host directory only when `cleanup` is
set; returns the response and the resulting world. -/
def deleteContainer (w : DelWorld) (businessId : Int) (cleanup : Bool) :
    Except (Nat × String) (ContainerResp × DelWorld) :=
  if w.containerExists then
    .ok (⟨containerName businessId, "removed"⟩,
      ⟨false, if cleanup then false else w.dirExists⟩)
  else
    .error (404, "Container " ++ containerName businessId ++ " not found")

/-- Handler `container_health` (app.py lines 279-291): `lookup` is the runtime's
answer to `containers.get` (`some status` or absent). -/
def containerHealth (lookup : Option String) (businessId : Int) : HealthResp :=
  match lookup with
  | some st => ⟨containerName businessId, st, st == "running"⟩
  | none => ⟨containerName businessId, "not_found", false⟩

/-- Network effects attempted by `_ensure_network`. -/
inductive NetEv where
  | get
  | create (driver : String)
deriving DecidableEq

/-- Helper `_ensure_network` (app.py lines 72-76): `lookupRes`/`createRes` are the
outcomes of `networks.get` and `networks.create(driver="bridge")`; only a
`NotFound` from the lookup is caught. -/
def ensureNetwork (lookupRes : Except NetErr Unit) (createRes : Except NetErr Unit) :
    List NetEv × Except NetErr Unit :=
  match lookupRes with
  | .ok _ => ([.get], .ok ())
  | .error .notFound =>
    match createRes with
    | .ok _ => ([.get, .create "bridge"], .ok ())
    | .error e => ([.get, .create "bridge"], .error e)
  | .error e => ([.get], .error e)

/-! Helper lemmas. -/

theorem isPrefixOf_append_self (l b : List Char) : l.isPrefixOf (l ++ b) = true := by
  induction l with
  | nil => simp [List.isPrefixOf]
  | cons c l ih => simp [List.isPrefixOf, ih]

theorem subMatch_here (k b : List Char) : subMatch k (k ++ b) = true := by
  cases k with
  | nil =>
    cases b with
    | nil => rfl
    | cons c rest => simp [subMatch]
  | cons c k' => simp [subMatch, isPrefixOf_append_self]

theorem subMatch_append_left (k s a : List Char) (h : subMatch k s = true) :
    subMatch k (a ++ s) = true := by
  induction a with
  | nil => simpa using h
  | cons c a ih => simp [subMatch, ih]

/-- Concrete oracle: no pre-existing container or directory, every
filesystem and runtime call succeeds, the network already exists, and the
shared skill file is absent. -/
def oracleOk : Oracle :=
  ⟨false, false, true, true, true, true, true, true, none, true, none⟩

/-- Concrete oracle: a container and host directory already exist for the
tenant and every call succeeds. -/
def oracleBusy : Oracle :=
  ⟨true, true, true, true, true, true, true, true, none, true, none⟩

/-- The end-to-end scenario request of spec §8. -/
def req42 : Req :=
  { business_id := 42, business_name := "Acme Flowers", telegram_bot_token := "T",
    telegram_user_id := "99", api_key := "K", flyapp_api_url := "https://api.acme/" }

/-- A request whose telegram user id is not numeric. -/
def reqBadUser : Req :=
  { business_id := 7, business_name := "Shop", telegram_bot_token := "T",
    telegram_user_id := "abc", api_key := "K", flyapp_api_url := "https://api.example/" }

/-! Claims. -/

/-- C6: `Delete(tenantId, cleanup=false)` removes the container and leaves
the host directory untouched; `Delete(tenantId, cleanup=true)` removes the
container and recursively removes the host directory; when the container
is absent, Delete reports 404 NotFound regardless of the cleanup flag. -/
theorem delete_spec (w : DelWorld) (businessId : Int) (cleanup : Bool) :
    (w.containerExists = true → cleanup = false →
      deleteContainer w businessId cleanup =
        .ok (⟨containerName businessId, "removed"⟩, ⟨false, w.dirExists⟩)) ∧
    (w.containerExists = true → cleanup = true →
      deleteContainer w businessId cleanup =
        .ok (⟨containerName businessId, "removed"⟩, ⟨false, false⟩)) ∧
    (w.containerExists = false →
      deleteContainer w businessId cleanup =
        .error (404, "Container " ++ containerName businessId ++ " not found")) := by
  refine ⟨fun hc hcl => ?_, fun hc hcl => ?_, fun hc => ?_⟩
  · simp [deleteContainer, hc, hcl]
  · simp [deleteContainer, hc, hcl]
  · simp [deleteContainer, hc]

theorem delete_spec_witness :
    deleteContainer ⟨true, true⟩ 7 false =
      .ok (⟨containerName 7, "removed"⟩, ⟨false, true⟩) :=
  (delete_spec ⟨true, true⟩ 7 false).1 rfl rfl

/-- C7: Health reports `healthy = true` exactly when the runtime says the
container status is "running"; any other status is echoed verbatim with
`healthy = false`; an absent container yields the distinct status string
"not_found" with `healthy = false`, not an error. -/
theorem health_mapping (lookup : Option String) (businessId : Int) :
    ((containerHealth lookup businessId).healthy = true ↔ lookup = some "running") ∧
    (∀ s, lookup = some s → (containerHealth lookup businessId).status = s) ∧
    (lookup = none →
      (containerHealth lookup businessId).status = "not_found" ∧
      (containerHealth lookup businessId).healthy = false) ∧
    (containerHealth lookup businessId).container_id = containerName businessId := by
  cases lookup with
  | none => simp [containerHealth]
  | some s =>
    refine ⟨?_, ?_, ?_, ?_⟩ <;> simp [containerHealth]

theorem health_mapping_witness :
    (containerHealth (some "exited") 5).status = "exited" :=
  (health_mapping (some "exited") 5).2.1 "exited" rfl

/-- C8 counterexample: when the network lookup reports NotFound and the
subsequent create call fails with a duplicate-network error, the error
propagates out of `_ensure_network` — it is not treated as benign
success, contrary to the claim. -/
theorem ensure_network_duplicate_counterexample :
    (ensureNetwork (.error .notFound) (.error .duplicate)).2 = .error .duplicate ∧
    (ensureNetwork (.error .notFound) (.error .duplicate)).2 ≠ .ok () :=
  ⟨rfl, fun h => by simp [ensureNetwork] at h⟩

/-- C8 (amended): `_ensure_network` has get-or-create semantics — a
successful lookup performs no create; a NotFound lookup triggers a create
with the bridge driver; any other lookup error propagates; and any error
raised by the create call (including a duplicate-network error) propagates
verbatim rather than being treated as benign success. -/
theorem ensure_network_spec (lookupRes createRes : Except NetErr Unit) :
    (∀ u, lookupRes = .ok u → ensureNetwork lookupRes createRes = ([.get], .ok ())) ∧
    (lookupRes = .error .notFound →
      (ensureNetwork lookupRes createRes).1 = [.get, .create "bridge"] ∧
      (ensureNetwork lookupRes createRes).2 = createRes) ∧
    (∀ e, e ≠ NetErr.notFound → lookupRes = .error e →
      ensureNetwork lookupRes createRes = ([.get], .error e)) := by
  refine ⟨?_, ?_, ?_⟩
  · rintro u rfl; rfl
  · rintro rfl
    cases createRes with
    | ok u => exact ⟨rfl, rfl⟩
    | error e => exact ⟨rfl, rfl⟩
  · rintro e he rfl
    cases e with
    | notFound => exact absurd rfl he
    | duplicate => rfl
    | other => rfl

theorem ensure_network_spec_witness :
    (ensureNetwork (.error .notFound) (.ok ())).1 = [.get, .create "bridge"] ∧
    (ensureNetwork (.error .notFound) (.ok ())).2 = .ok () :=
  (ensure_network_spec (.error .notFound) (.ok ())).2.1 rfl

/-- C9: the rendered persona document (`SOUL.md`) is independent of the
request's secret fields — changing the api key, bot token, and upstream
API URL leaves it unchanged — while the raw api key and base URL do appear
in the separate tool-credential document (`TOOLS.md`). -/
theorem soul_independent_of_secrets (req : Req) (k t u skill : String) :
    renderSoul { req with api_key := k, telegram_bot_token := t, flyapp_api_url := u } =
      renderSoul req ∧
    containsSub (renderTools skill req) req.api_key = true ∧
    containsSub (renderTools skill req) req.flyapp_api_url = true := by
  refine ⟨rfl, ?_, ?_⟩ <;>
    · show subMatch _ _ = true
      simp only [renderTools, String.data_append, List.append_assoc]
      repeat
        first
        | exact subMatch_here _ _
        | apply subMatch_append_left _ _ _

theorem notMem_baseTrace (o : Oracle) (e : Ev)
    (h1 : e ≠ .getContainer) (h2 : e ≠ .removeContainer)
    (h3 : e ≠ .rmtreeDir) (h4 : e ≠ .mkdirConfig) : e ∉ baseTrace o := by
  unfold baseTrace
  split <;> split <;> simp_all

theorem removeContainer_mem_baseTrace (o : Oracle) (h : o.existing = true) :
    Ev.removeContainer ∈ baseTrace o := by
  unfold baseTrace
  rw [if_pos h]
  split <;> simp

theorem rmtreeDir_mem_baseTrace (o : Oracle) (h : o.dirExists = true) :
    Ev.rmtreeDir ∈ baseTrace o := by
  unfold baseTrace
  rw [if_pos h]
  split <;> simp

/-- C10: whenever Create completes successfully, the response is exactly
container id `openclaw-client-<business_id>` with status `"running"`; the
`already_running` status is never produced, since the handler always
force-removes any existing container and never reuses it. -/
theorem create_result_always_running (tok : String) (o : Oracle) (req : Req)
    (r : ContainerResp) (h : (createContainer tok o req).2 = .ok r) :
    r = ⟨"openclaw-client-" ++ toString req.business_id, "running"⟩ ∧
    r.status ≠ "already_running" := by
  unfold createContainer at h
  repeat' split at h
  all_goals simp_all [containerName]
  all_goals subst h
  all_goals simp

theorem create_result_always_running_witness :
    (⟨"openclaw-client-42", "running"⟩ : ContainerResp) =
      ⟨"openclaw-client-" ++ toString (42 : Int), "running"⟩ ∧
    (⟨"openclaw-client-42", "running"⟩ : ContainerResp).status ≠ "already_running" :=
  create_result_always_running "MT" oracleOk req42 ⟨"openclaw-client-42", "running"⟩ rfl

/-- C1: starting the container is the last step of Create — if the
configuration write or any workspace write (directory creation or either
document write) fails, the runtime run call is never attempted. -/
theorem create_no_run_after_write_failure (tok : String) (o : Oracle) (req : Req)
    (h : o.configWriteOk = false ∨ o.mkdirWorkspaceOk = false ∨
      o.soulWriteOk = false ∨ o.toolsWriteOk = false) :
    Ev.runContainer ∉ (createContainer tok o req).1 := by
  have hbase : Ev.runContainer ∉ baseTrace o :=
    notMem_baseTrace o _ (by simp) (by simp) (by simp) (by simp)
  unfold createContainer
  repeat' split
  all_goals simp_all [List.mem_append]

theorem create_no_run_after_write_failure_witness :
    Ev.runContainer ∉
      (createContainer "MT"
        { oracleOk with configWriteOk := false } req42).1 :=
  create_no_run_after_write_failure "MT" { oracleOk with configWriteOk := false } req42
    (Or.inl rfl)

/-- C2 counterexample: for a request whose telegram user id is not numeric
and a tenant with an existing container and host directory, Create fails
with a ValueError but only after the existing container has been removed
and the host directory wiped — side effects do happen before the
rejection, contrary to the claim. -/
theorem create_malformed_side_effects_counterexample :
    (createContainer "MT" oracleBusy reqBadUser).2 = .error .valueError ∧
    Ev.removeContainer ∈ (createContainer "MT" oracleBusy reqBadUser).1 ∧
    Ev.rmtreeDir ∈ (createContainer "MT" oracleBusy reqBadUser).1 := by
  refine ⟨rfl, ?_, ?_⟩ <;> decide

/-- C2 (amended): a non-integer business id is rejected by the request
model before the handler runs, but the remaining validation is late: a
non-numeric telegram user id makes Create fail with a ValueError while
building the configuration — after the existing container has been
removed and the host directory wiped and recreated, though before any
config or workspace document is written and before any container is
started — and an empty business name is never rejected (the handler
behaves identically on it). -/
theorem create_validation_is_late (tok : String) (o : Oracle) (req : Req)
    (hmk : o.mkdirConfigOk = true) (hbad : pyInt req.telegram_user_id = none) :
    (createContainer tok o req).2 = .error .valueError ∧
    Ev.writeConfig ∉ (createContainer tok o req).1 ∧
    Ev.writeSoul ∉ (createContainer tok o req).1 ∧
    Ev.runContainer ∉ (createContainer tok o req).1 ∧
    (o.existing = true → Ev.removeContainer ∈ (createContainer tok o req).1) ∧
    (o.dirExists = true → Ev.rmtreeDir ∈ (createContainer tok o req).1) ∧
    (∀ (tok2 : String) (o2 : Oracle) (req2 : Req),
      createContainer tok2 o2 { req2 with business_name := "" } =
        createContainer tok2 o2 req2) := by
  have hcfg : buildConfig tok req = none := by
    simp [buildConfig, hbad]
  have htr : createContainer tok o req = (baseTrace o, .error .valueError) := by
    unfold createContainer
    rw [hcfg]
    simp [hmk]
  rw [htr]
  refine ⟨rfl, ?_, ?_, ?_, ?_, ?_, fun _ _ _ => rfl⟩
  · exact notMem_baseTrace o _ (by simp) (by simp) (by simp) (by simp)
  · exact notMem_baseTrace o _ (by simp) (by simp) (by simp) (by simp)
  · exact notMem_baseTrace o _ (by simp) (by simp) (by simp) (by simp)
  · exact fun h => removeContainer_mem_baseTrace o h
  · exact fun h => rmtreeDir_mem_baseTrace o h

theorem create_validation_is_late_witness :
    (createContainer "MT" oracleBusy reqBadUser).2 = .error .valueError ∧
    Ev.writeConfig ∉ (createContainer "MT" oracleBusy reqBadUser).1 ∧
    Ev.writeSoul ∉ (createContainer "MT" oracleBusy reqBadUser).1 ∧
    Ev.runContainer ∉ (createContainer "MT" oracleBusy reqBadUser).1 ∧
    Ev.removeContainer ∈ (createContainer "MT" oracleBusy reqBadUser).1 ∧
    Ev.rmtreeDir ∈ (createContainer "MT" oracleBusy reqBadUser).1 := by
  have h := create_validation_is_late "MT" oracleBusy reqBadUser rfl rfl
  exact ⟨h.1, h.2.1, h.2.2.1, h.2.2.2.1, h.2.2.2.2.1 rfl, h.2.2.2.2.2.1 rfl⟩

set_option maxRecDepth 40000 in
/-- C4 counterexample: for the §8 scenario request, the channel allowlist
written into the config document is the JSON array `[99]` of numbers (the
user id is parsed with `int(...)`), not the string array `["99"]` the
claim states; no quoted `"99"` occurs anywhere in the rendered config
document. -/
theorem config_allowlist_is_numeric_counterexample :
    ((buildConfig "MT" req42).bind fun j =>
        (jsonLookup j "channels").bind fun j2 =>
          (jsonLookup j2 "telegram").bind fun j3 => jsonLookup j3 "allowFrom") =
      some (Json.arr [Json.num 99]) ∧
    Json.arr [Json.num 99] ≠ Json.arr [Json.str "99"] ∧
    containsSub ((configDocText "MT" req42).getD "") "\"99\"" = false := by
  refine ⟨rfl, by simp, by decide⟩

set_option maxRecDepth 40000 in
/-- C4 (amended): for the request
`{id=42, name="Acme Flowers", botToken="T", userId="99", apiKey="K",
apiUrl="https://api.acme/"}` with no prior container, Create returns
container id `openclaw-client-42` with status `running`, the written
config document contains the channel allowlist `[99]` (the user id as a
JSON number), the persona document contains the literal substring
`Acme Flowers`, and the tool-credential document contains the literal
substring `K`. -/
theorem create_scenario_42 :
    (createContainer "MT" oracleOk req42).2 =
      .ok ⟨"openclaw-client-42", "running"⟩ ∧
    containsSub ((configDocText "MT" req42).getD "")
      "\"allowFrom\": [\n        99\n      ]" = true ∧
    containsSub (renderSoul req42) "Acme Flowers" = true ∧
    containsSub (renderTools (loadSkillContent oracleOk.skillFile) req42) "K" = true := by
  refine ⟨rfl, by decide, by decide, by decide⟩

theorem hasMarker_cons (c : Char) (rest : List Char) :
    hasMarker (c :: rest) = (markerAtStart (c :: rest) || hasMarker rest) := rfl

theorem markerAtStart_false_of_hasMarker_false (l : List Char)
    (h : hasMarker l = false) : markerAtStart l = false := by
  cases l with
  | nil => rfl
  | cons c rest =>
    rw [hasMarker_cons] at h
    exact (Bool.or_eq_false_iff.mp h).1

/-- Splitting at a well-formed closing marker: when the front-matter block
`fm` contains no marker (nor creates one at its boundary with the closing
marker), the next split of `fm ++ "---" ++ rest` happens exactly at that
closing marker. -/
theorem splitMarker_closing (m : Nat) (fm rest : List Char)
    (h : hasMarker (fm ++ ['-', '-']) = false) :
    splitMarker (m + 1) (fm ++ ('-' :: '-' :: '-' :: rest)) = fm :: splitMarker m rest := by
  induction fm with
  | nil =>
    simp [splitMarker, markerAtStart]
  | cons a fm ih =>
    rcases fm with _ | ⟨b, _ | ⟨c, fm2⟩⟩
    · simp [hasMarker, markerAtStart] at h
      simp [splitMarker, markerAtStart, consFirst, h]
    · simp [hasMarker, markerAtStart] at h
      simp [splitMarker, markerAtStart, consFirst, h.2]
    · rw [List.cons_append, hasMarker_cons] at h
      have h1 := (Bool.or_eq_false_iff.mp h).1
      have h2 := (Bool.or_eq_false_iff.mp h).2
      have hfix : b :: c :: (fm2 ++ ('-' :: '-' :: '-' :: rest)) =
          (b :: c :: fm2) ++ ('-' :: '-' :: '-' :: rest) := by simp
      have hms : markerAtStart (a :: b :: c :: (fm2 ++ ('-' :: '-' :: '-' :: rest))) = false := by
        simpa [markerAtStart] using h1
      calc splitMarker (m + 1) ((a :: b :: c :: fm2) ++ ('-' :: '-' :: '-' :: rest))
          = splitMarker (m + 1) (a :: b :: c :: (fm2 ++ ('-' :: '-' :: '-' :: rest))) := by
            simp
        _ = consFirst a (splitMarker (m + 1) (b :: c :: (fm2 ++ ('-' :: '-' :: '-' :: rest)))) := by
            simp only [splitMarker, hms]
            simp
        _ = consFirst a (splitMarker (m + 1) ((b :: c :: fm2) ++ ('-' :: '-' :: '-' :: rest))) := by
            rw [hfix]
        _ = consFirst a ((b :: c :: fm2) :: splitMarker m rest) := by
            rw [ih h2]
        _ = (a :: b :: c :: fm2) :: splitMarker m rest := rfl

/-- C5: `_load_skill_content` returns exactly the whitespace-trimmed body
for a document that begins with a marker-delimited front-matter block
followed by body text; returns a document with no marker unchanged; and
returns the empty string (without raising) for a missing file. -/
theorem load_skill_spec (fm body doc : String)
    (hfm : hasMarker (fm.data ++ ['-', '-']) = false)
    (hdoc : hasMarker doc.data = false) :
    loadSkillContent (some ("---" ++ fm ++ "---" ++ body)) = pyStrip body ∧
    loadSkillContent (some doc) = doc ∧
    loadSkillContent none = "" := by
  refine ⟨?_, ?_, rfl⟩
  · have hdata : ("---" ++ fm ++ "---" ++ body).data =
        '-' :: '-' :: '-' :: (fm.data ++ ('-' :: '-' :: '-' :: body.data)) := by
      have h3 : "---".data = ['-', '-', '-'] := rfl
      simp [String.data_append, h3]
    have hsplit : splitMarker 2 ('-' :: '-' :: '-' :: (fm.data ++ ('-' :: '-' :: '-' :: body.data))) =
        [[], fm.data, body.data] := by
      have e1 : splitMarker (1 + 1) ('-' :: '-' :: '-' :: (fm.data ++ ('-' :: '-' :: '-' :: body.data))) =
          [] :: splitMarker 1 (fm.data ++ ('-' :: '-' :: '-' :: body.data)) := by
        simp [splitMarker, markerAtStart]
      have e2 := splitMarker_closing 0 fm.data body.data hfm
      norm_num at e1 e2
      rw [e1, e2]
      simp [splitMarker]
    simp only [loadSkillContent]
    rw [hdata, hsplit]
    simp [markerAtStart]
  · have hms : markerAtStart doc.data = false :=
      markerAtStart_false_of_hasMarker_false _ hdoc
    simp [loadSkillContent, hms]

theorem load_skill_spec_witness :
    loadSkillContent (some ("---" ++ "title: x" ++ "---" ++ " body text ")) =
      pyStrip " body text " ∧
    loadSkillContent (some "plain body") = "plain body" ∧
    loadSkillContent none = "" :=
  load_skill_spec "title: x" " body text " "plain body" (by decide) (by decide)

end Flyclawd
